import Mathlib

/-!
Verification development for the `payoutd` daemon (src/payoutd.c).

The daemon mediates between cash hardware (an SSP6 coin hopper and a note
validator) and a redis pub/sub bus.  Clients publish JSON command envelopes
on `hopper-request` / `validator-request`; the daemon publishes JSON
response envelopes on the paired `*-response` topic and JSON event
envelopes on the `*-event` topics.

This file shallowly embeds the parts of payoutd.c that the verified
properties are about: the raw-substring command test `isCommand`, the
request callback `cbOnRequestMessage` with its command handlers (modelled
as pure functions from the parsed message, the cached device state and the
hardware's wire results to the list of published response strings), and
the two poll-event translators `hopperEventHandler` /
`validatorEventHandler` (modelled per event as the list of published event
strings).

JSON parsing in payoutd.c is done by the external jansson library
(`json_loads`, `json_object_get`, `json_is_string`, `json_is_number`,
`json_string_value`, `json_number_value`).  jansson is not part of the
repository, so it is modelled here by a small executable parser for the
JSON subset the daemon exchanges: objects whose members are strings
(without escape sequences) or integer numbers, with arbitrary whitespace.
With the default flags used in payoutd.c (`json_loads(message, 0, &error)`)
the top level value must be an object and trailing garbage is rejected.
-/

namespace Payoutd

/-- JSON values of the subset modelled: strings, integer numbers and
objects (member order preserved, as jansson iterates). -/
inductive JVal where
  | jstr : String → JVal
  | jnum : Int → JVal
  | jobj : List (String × JVal) → JVal

/-- Skip JSON whitespace. -/
def skipWs : List Char → List Char
  | [] => []
  | c :: rest =>
    if c = ' ' ∨ c = '\t' ∨ c = '\n' ∨ c = '\r' then skipWs rest else c :: rest

/-- Parse the rest of a JSON string after its opening quote.  Escape
sequences are outside the modelled subset and rejected. -/
def parseStringRest : List Char → Option (List Char × List Char)
  | [] => none
  | c :: rest =>
    if c = '"' then some ([], rest)
    else if c = '\\' then none
    else
      match parseStringRest rest with
      | some (s, r) => some (c :: s, r)
      | none => none

/-- Leading decimal digits of a character list. -/
def parseDigits : List Char → (List Char × List Char)
  | [] => ([], [])
  | c :: rest =>
    if c.isDigit then
      let (d, r) := parseDigits rest
      (c :: d, r)
    else ([], c :: rest)

/-- Numeric value of a digit list. -/
def digitsVal (ds : List Char) : Nat :=
  ds.foldl (fun a c => 10 * a + (c.toNat - 48)) 0

/-- Parse an integer JSON number (optional leading minus). -/
def parseNumber (cs : List Char) : Option (Int × List Char) :=
  let (neg, cs1) := match cs with
    | '-' :: r => (true, r)
    | _ => (false, cs)
  match parseDigits cs1 with
  | ([], _) => none
  | (ds, r) => some (if neg then -(digitsVal ds : Int) else (digitsVal ds : Int), r)

mutual

/-- Parse one JSON value.  The fuel argument bounds the recursion depth. -/
def parseVal : Nat → List Char → Option (JVal × List Char)
  | 0, _ => none
  | Nat.succ fuel, cs =>
    match skipWs cs with
    | '"' :: rest =>
      match parseStringRest rest with
      | some (s, r) => some (JVal.jstr (String.mk s), r)
      | none => none
    | '\x7b' :: rest =>
      match skipWs rest with
      | '\x7d' :: r2 => some (JVal.jobj [], r2)
      | cs2 =>
        match parsePairs fuel cs2 with
        | some (fields, r2) => some (JVal.jobj fields, r2)
        | none => none
    | cs1 =>
      match parseNumber cs1 with
      | some (n, r) => some (JVal.jnum n, r)
      | none => none

/-- Parse the members of a JSON object up to and including the closing
brace. -/
def parsePairs : Nat → List Char → Option (List (String × JVal) × List Char)
  | 0, _ => none
  | Nat.succ fuel, cs =>
    match skipWs cs with
    | '"' :: rest =>
      match parseStringRest rest with
      | some (k, r1) =>
        match skipWs r1 with
        | ':' :: r2 =>
          match parseVal fuel (skipWs r2) with
          | some (v, r3) =>
            match skipWs r3 with
            | ',' :: r4 =>
              match parsePairs fuel r4 with
              | some (fields, r5) => some ((String.mk k, v) :: fields, r5)
              | none => none
            | '\x7d' :: r4 => some ([(String.mk k, v)], r4)
            | _ => none
          | none => none
        | _ => none
      | none => none
    | _ => none

end

/-- Model of jansson's `json_loads(message, 0, &error)`: parse the message;
with flags 0 the top-level value must be an object and trailing non-space
input is an error. -/
def json_loads (s : String) : Option JVal :=
  match parseVal (s.length + 1) s.toList with
  | some (JVal.jobj fields, rest) =>
    match skipWs rest with
    | [] => some (JVal.jobj fields)
    | _ => none
  | _ => none

/-- First member with the given key, as jansson's `json_object_get`. -/
def lookupField : List (String × JVal) → String → Option JVal
  | [], _ => none
  | (k, v) :: rest, key => if k = key then some v else lookupField rest key

/-- Model of jansson's `json_object_get`. -/
def json_object_get (j : JVal) (key : String) : Option JVal :=
  match j with
  | JVal.jobj fields => lookupField fields key
  | _ => none

/-- `json_is_string` combined with `json_string_value`: the string value of
a (possibly absent) JSON value, when it is a string. -/
def jsonStringValue : Option JVal → Option String
  | some (JVal.jstr s) => some s
  | _ => none

/-- Model of jansson's `json_is_number` on a (possibly absent) value. -/
def jsonIsNumber : Option JVal → Bool
  | some (JVal.jnum _) => true
  | _ => false

/-- Model of jansson's `json_number_value` (0 for absent or non-number
values), composed with payoutd's truncating cast to `int`; the modelled
subset only has integer numbers, so the truncation is the identity. -/
def jsonNumberValue : Option JVal → Int
  | some (JVal.jnum n) => n
  | _ => 0

/-- The parsed `cmd` field of a raw message: `json_loads` followed by
`json_object_get(_, "cmd")`, when that member is a string. -/
def parsedCmd (message : String) : Option String :=
  match json_loads message with
  | some j => jsonStringValue (json_object_get j "cmd")
  | none => none

/-- Substring occurrence on character lists: does `needle` occur
contiguously inside `haystack`? -/
def occursIn (needle : List Char) : List Char → Bool
  | [] => needle.isEmpty
  | c :: rest => needle.isPrefixOf (c :: rest) || occursIn needle rest

/-- C `strstr(haystack, needle) != NULL`, used by `isCommand` on the raw
message and by the channel handlers on the `channels` string. -/
def strstr (haystack needle : String) : Bool :=
  occursIn needle.toList haystack.toList

/-- `isCommand` from payoutd.c: test whether the RAW message contains the
substring `"cmd":"<command>"` (C `strstr`), without parsing the JSON. -/
def isCommand (message command : String) : Bool :=
  strstr message ("\"cmd\":\"" ++ command ++ "\"")

/-- SSP protocol response status, from the vendor enum
`SSP_RESPONSE_ENUM`; the handlers only ever compare against
`SSP_RESPONSE_OK`, so the remaining statuses are kept abstract. -/
inductive SspResponse where
  | ok
  | genericFail
  | timeout
  | keyNotSet
  | commandNotKnown
deriving DecidableEq

/-- The constant currency code `CURRENCY = "EUR"`. -/
def CURRENCY : String := "EUR"

/-- `replyOk`: payload
`{"msgId":"<responseMsgId>","correlId":"<msgId>","result":"ok"}`. -/
def replyOk (responseMsgId msgId : String) : String :=
  "\x7b\"msgId\":\"" ++ responseMsgId ++ "\",\"correlId\":\"" ++ msgId ++
    "\",\"result\":\"ok\"\x7d"

/-- `replyFailed`: payload
`{"msgId":"<responseMsgId>","correlId":"<msgId>","result":"failed"}`. -/
def replyFailed (responseMsgId msgId : String) : String :=
  "\x7b\"msgId\":\"" ++ responseMsgId ++ "\",\"correlId\":\"" ++ msgId ++
    "\",\"result\":\"failed\"\x7d"

/-- `replyAccepted`: payload
`{"msgId":"<responseMsgId>","correlId":"<msgId>","accepted":"true"}`. -/
def replyAccepted (responseMsgId msgId : String) : String :=
  "\x7b\"msgId\":\"" ++ responseMsgId ++ "\",\"correlId\":\"" ++ msgId ++
    "\",\"accepted\":\"true\"\x7d"

/-!
## Channel handlers

`handleEnableChannels`, `handleDisableChannels` and
`handleInhibitChannels` compute an 8-bit low-channel mask from the
`channels` string by eight `strstr` tests on the digits '1'..'8', call
`ssp6_set_inhibits(sspC, low, high)` with `high = 0xFF`, and reply
ok/failed according to the wire result.  The cached mask
`device->channelInhibits` is an `unsigned char` (always < 256); bitwise
complements in the C code are modelled at the 8-bit width accordingly.
-/

/-- One step `m |= 1 << k` of the enable-channels fold, guarded by the
`strstr(channels, digit)` test. -/
def setStep (m : Nat) (b : Bool) (k : Nat) : Nat :=
  if b then m ||| (1 <<< k) else m

/-- One step `m &= ~(1 << k)` of the disable/inhibit-channels fold (8-bit
complement), guarded by the `strstr(channels, digit)` test. -/
def clearStep (m : Nat) (b : Bool) (k : Nat) : Nat :=
  if b then m &&& (255 ^^^ (1 <<< k)) else m

/-- The mask computed by `handleEnableChannels` before the wire call:
start from the cached mask and set a bit for each digit present in the
`channels` string. -/
def enableMask (old : Nat) (channels : String) : Nat :=
  let m := setStep old (strstr channels "1") 0
  let m := setStep m (strstr channels "2") 1
  let m := setStep m (strstr channels "3") 2
  let m := setStep m (strstr channels "4") 3
  let m := setStep m (strstr channels "5") 4
  let m := setStep m (strstr channels "6") 5
  let m := setStep m (strstr channels "7") 6
  setStep m (strstr channels "8") 7

/-- The mask computed by `handleDisableChannels` before the wire call:
start from the cached mask and clear a bit for each digit present in the
`channels` string. -/
def disableMask (old : Nat) (channels : String) : Nat :=
  let m := clearStep old (strstr channels "1") 0
  let m := clearStep m (strstr channels "2") 1
  let m := clearStep m (strstr channels "3") 2
  let m := clearStep m (strstr channels "4") 3
  let m := clearStep m (strstr channels "5") 4
  let m := clearStep m (strstr channels "6") 5
  let m := clearStep m (strstr channels "7") 6
  clearStep m (strstr channels "8") 7

/-- The low-channel byte computed by `handleInhibitChannels`: start from
`0xFF` and clear a bit for each digit present in the `channels` string. -/
def inhibitLow (channels : String) : Nat :=
  disableMask 255 channels

/-- The requested channel set as an 8-bit mask: bit `k-1` is set exactly
when digit `k` occurs in the `channels` string.  This is the claim-side
description of the masks the three channel handlers build. -/
def chanBits (channels : String) : Nat :=
  (if strstr channels "1" then 1 <<< 0 else 0) |||
  (if strstr channels "2" then 1 <<< 1 else 0) |||
  (if strstr channels "3" then 1 <<< 2 else 0) |||
  (if strstr channels "4" then 1 <<< 3 else 0) |||
  (if strstr channels "5" then 1 <<< 4 else 0) |||
  (if strstr channels "6" then 1 <<< 5 else 0) |||
  (if strstr channels "7" then 1 <<< 6 else 0) |||
  (if strstr channels "8" then 1 <<< 7 else 0)

/-- Observable outcome of a channel-mask command handler: the
`ssp6_set_inhibits(low, high)` wire call when one is issued, the device's
cached `channelInhibits` after the handler, and the published reply. -/
structure ChannelsOutcome where
  wire : Option (Nat × Nat)
  newMask : Nat
  reply : String
deriving DecidableEq

/-- Error reply of the channel handlers for a missing or non-string
`channels` member.  The C format string has a single `%s` but is passed
`(responseMsgId, msgId)`, so `correlId` receives the fresh response msgId,
not the incoming one. -/
def channelsMissingReply (responseMsgId : String) : String :=
  "\x7b\"correlId\":\"" ++ responseMsgId ++
    "\",\"error\":\"property \x27channels\x27 missing or not a string\"\x7d"

/-- `handleEnableChannels`: OR the requested digits into the cached mask,
push `set_inhibits(newMask, 0xFF)`, persist the new mask only on
`SSP_RESPONSE_OK`. -/
def handleEnableChannels (dev : Nat) (responseMsgId msgId : String)
    (jsonMessage : JVal) (res : SspResponse) : ChannelsOutcome :=
  match jsonStringValue (json_object_get jsonMessage "channels") with
  | none =>
    { wire := none, newMask := dev, reply := channelsMissingReply responseMsgId }
  | some channels =>
    let newM := enableMask dev channels
    { wire := some (newM, 255)
      newMask := if res = SspResponse.ok then newM else dev
      reply := if res = SspResponse.ok then replyOk responseMsgId msgId
               else replyFailed responseMsgId msgId }

/-- `handleDisableChannels`: clear the requested digits in the cached
mask, push `set_inhibits(newMask, 0xFF)`, persist only on OK. -/
def handleDisableChannels (dev : Nat) (responseMsgId msgId : String)
    (jsonMessage : JVal) (res : SspResponse) : ChannelsOutcome :=
  match jsonStringValue (json_object_get jsonMessage "channels") with
  | none =>
    { wire := none, newMask := dev, reply := channelsMissingReply responseMsgId }
  | some channels =>
    let newM := disableMask dev channels
    { wire := some (newM, 255)
      newMask := if res = SspResponse.ok then newM else dev
      reply := if res = SspResponse.ok then replyOk responseMsgId msgId
               else replyFailed responseMsgId msgId }

/-- `handleInhibitChannels`: compute the low byte from `0xFF` by clearing
the requested digits, push `set_inhibits(low, 0xFF)`; the cached
`channelInhibits` is never written, whatever the wire result. -/
def handleInhibitChannels (dev : Nat) (responseMsgId msgId : String)
    (jsonMessage : JVal) (res : SspResponse) : ChannelsOutcome :=
  match jsonStringValue (json_object_get jsonMessage "channels") with
  | none =>
    { wire := none, newMask := dev, reply := channelsMissingReply responseMsgId }
  | some channels =>
    { wire := some (inhibitLow channels, 255)
      newMask := dev
      reply := if res = SspResponse.ok then replyOk responseMsgId msgId
               else replyFailed responseMsgId msgId }

/-!
## set-denomination-level

`handleSetDenominationLevels` reads the JSON members `level` and `amount`
but assigns them crosswise (`amount = json_number_value(jLevel)`,
`level = json_number_value(jAmount)`, as in the source), then calls
`mc_ssp_set_denomination_level(sspC, amount, 0, CURRENCY)` when
`level > 0` (result ignored) and always
`mc_ssp_set_denomination_level(sspC, amount, level, CURRENCY)`, replying
ok/failed by the second result only.
-/

/-- Arguments of one `mc_ssp_set_denomination_level(sspC, amount, level,
cc)` call, with the C parameter names: `level` is encoded as the 2-byte
coin-count field and `amount` as the 4-byte coin-value field. -/
structure DenomCall where
  amount : Int
  level : Int
  cc : String
deriving DecidableEq

/-- Payload bytes built by `mc_ssp_set_denomination_level` (for
non-negative arguments): command byte `0x34`, the 2-byte little-endian
coin count from the `level` parameter, the 4-byte little-endian coin
value from the `amount` parameter, then the 3 ASCII currency bytes. -/
def mc_ssp_set_denomination_level_payload (amount level : Nat) (cc : String) :
    List Nat :=
  [0x34, level % 256, level / 256 % 256,
   amount % 256, amount / 256 % 256, amount / 65536 % 256,
   amount / 16777216 % 256] ++ (cc.toList.map Char.toNat)

/-- `handleSetDenominationLevels`: the list of
`mc_ssp_set_denomination_level` wire calls it issues (in order) and its
reply; `res2` is the wire result of the last call (the first call's
result is ignored by the source). -/
def handleSetDenominationLevels (responseMsgId msgId : String)
    (jsonMessage : JVal) (res2 : SspResponse) : List DenomCall × String :=
  let amount := jsonNumberValue (json_object_get jsonMessage "level")
  let level := jsonNumberValue (json_object_get jsonMessage "amount")
  ((if level > 0 then [{ amount := amount, level := 0, cc := CURRENCY }] else [])
    ++ [{ amount := amount, level := level, cc := CURRENCY }],
   if res2 = SspResponse.ok then replyOk responseMsgId msgId
   else replyFailed responseMsgId msgId)

/-!
## Remaining command handlers (published responses)

The models below capture the response envelope each handler publishes;
hardware wire results and device-reported data enter as parameters.
-/

/-- Error reply of `handlePayout`/`handleFloat` for a missing or
non-numeric `amount` member.  As with `channelsMissingReply`, the C format
string has one `%s` but is passed `(responseMsgId, msgId)`, so `correlId`
receives the fresh response msgId. -/
def amountMissingReply (responseMsgId : String) : String :=
  "\x7b\"correlId\":\"" ++ responseMsgId ++
    "\",\"error\":\"property \x27amount\x27 missing or not a number\"\x7d"

/-- The payout/float failure strings selected from
`sspC.ResponseData[1]`. -/
def payoutErrorString (code : Nat) : String :=
  match code with
  | 0x01 => "not enough value in smart payout"
  | 0x02 => "can\x27t pay exact amount"
  | 0x03 => "smart payout busy"
  | 0x04 => "smart payout disabled"
  | _ => "unknown"

/-- Failure reply of `handlePayout`/`handleFloat`:
`{"correlId":"<msgId>","error":"<error>"}`. -/
def payoutErrorReply (msgId error : String) : String :=
  "\x7b\"correlId\":\"" ++ msgId ++ "\",\"error\":\"" ++ error ++ "\"\x7d"

/-- `handlePayout` (also `handleFloat`, which is a copy): reply with the
amount-missing error, the failure-code error, or ok.  `res` is the
`ssp6_payout`/`mc_ssp_float` wire result and `errCode` is
`sspC.ResponseData[1]` after a failure. -/
def handlePayout (responseMsgId msgId : String) (jsonMessage : JVal)
    (res : SspResponse) (errCode : Nat) : List String :=
  if jsonIsNumber (json_object_get jsonMessage "amount") = false then
    [amountMissingReply responseMsgId]
  else if res ≠ SspResponse.ok then
    [payoutErrorReply msgId (payoutErrorString errCode)]
  else
    [replyOk responseMsgId msgId]

/-- `handleGetFirmwareVersion`: the version buffer starts zeroed and is
only written on `SSP_RESPONSE_OK`; the reply format string ends in
`\"]}`, so the published envelope closes with `"]}`. -/
def handleGetFirmwareVersion (msgId : String) (res : SspResponse)
    (firmwareVersion : String) : List String :=
  ["\x7b\"correlId\":\"" ++ msgId ++ "\",\"version\":\"" ++
    (if res = SspResponse.ok then firmwareVersion else "") ++ "\"]\x7d"]

/-- `handleGetDatasetVersion`: same shape (and same stray `]`) as
`handleGetFirmwareVersion`. -/
def handleGetDatasetVersion (msgId : String) (res : SspResponse)
    (datasetVersion : String) : List String :=
  ["\x7b\"correlId\":\"" ++ msgId ++ "\",\"version\":\"" ++
    (if res = SspResponse.ok then datasetVersion else "") ++ "\"]\x7d"]

/-- `handleGetAllLevels`: wraps the comma-separated counter list built by
`mc_ssp_get_all_levels` (passed here as `levelsJson`) in
`{"correlId":...,"levels":[...]}`; the wire result is ignored. -/
def handleGetAllLevels (msgId levelsJson : String) : List String :=
  ["\x7b\"correlId\":\"" ++ msgId ++ "\",\"levels\":[" ++ levelsJson ++ "]\x7d"]

/-- The reject-reason table of `handleLastRejectNote`; `none` for codes
the switch leaves unassigned. -/
def rejectReasonString (code : Nat) : Option String :=
  match code with
  | 0x00 => some "note accepted"
  | 0x01 => some "note length incorrect"
  | 0x02 => some "undisclosed (reject reason 2)"
  | 0x03 => some "undisclosed (reject reason 3)"
  | 0x04 => some "undisclosed (reject reason 4)"
  | 0x05 => some "undisclosed (reject reason 5)"
  | 0x06 => some "channel inhibited"
  | 0x07 => some "second note inserted"
  | 0x08 => some "undisclosed (reject reason 8)"
  | 0x09 => some "note recognised in more than one channel"
  | 0x0A => some "undisclosed (reject reason 10)"
  | 0x0B => some "note too long"
  | 0x0C => some "undisclosed (reject reason 12)"
  | 0x0D => some "mechanism slow/stalled"
  | 0x0E => some "strimming attempt detected"
  | 0x0F => some "fraud channel reject"
  | 0x10 => some "no notes inserted"
  | 0x11 => some "peak detect fail"
  | 0x12 => some "twisted note detected"
  | 0x13 => some "escrow time-out"
  | 0x14 => some "bar code scan fail"
  | 0x15 => some "rear sensor 2 fail"
  | 0x16 => some "slot fail 1"
  | 0x17 => some "slot fail 2"
  | 0x18 => some "lens over-sample"
  | 0x19 => some "width detect fail"
  | 0x1A => some "short note detected"
  | 0x1B => some "note payout"
  | 0x1C => some "unable to stack note"
  | _ => none

/-- `handleLastRejectNote`: on OK, reply with the decoded (or
"undefined") reason and the raw code; otherwise a bare timeout object
without any correlId. -/
def handleLastRejectNote (msgId : String) (res : SspResponse)
    (reasonCode : Nat) : List String :=
  if res = SspResponse.ok then
    match rejectReasonString reasonCode with
    | some reason =>
      ["\x7b\"correlId\":\"" ++ msgId ++ "\",\"reason\":\"" ++ reason ++
        "\",\"code\":" ++ toString reasonCode ++ "\x7d"]
    | none =>
      ["\x7b\"correlId\":\"" ++ msgId ++
        "\",\"reason\":\"undefined\",\"code\":" ++ toString reasonCode ++ "\x7d"]
  else
    ["\x7b\"timeout\":\"last reject note\"\x7d"]

/-- `handleChannelSecurityData`: issues
`mc_ssp_channel_security_data` (which only prints to stdout) and
publishes NO response envelope at all. -/
def handleChannelSecurityData : List String := []

/-- The generic error reply for an unrecognized command.  The C format
string has two `%s` but is passed `(cmd.msgId, message, cmd.command)`:
vasprintf consumes the arguments positionally, so the `cmd` field of the
reply receives the ENTIRE raw message and the parsed command name goes
unused. -/
def unknownCommandReply (msgId message : String) : String :=
  "\x7b\"correlId\":\"" ++ msgId ++
    "\",\"error\":\"unknown command\",\"cmd\":\"" ++ message ++ "\"\x7d"

/-- Reply when the serial device was never opened:
`{"correlId":"<msgId>","error":"hardware unavailable"}`. -/
def hardwareUnavailableReply (msgId : String) : String :=
  "\x7b\"correlId\":\"" ++ msgId ++ "\",\"error\":\"hardware unavailable\"\x7d"

/-- Reply for a message that jansson could not parse; `errText` and
`errLine` come from jansson's `json_error_t`. -/
def parseErrorReply (errText : String) (errLine : Int) : String :=
  "\x7b\"error\":\"could not parse json\",\"reason\":\"" ++ errText ++
    "\",\"line\":" ++ toString errLine ++ "\x7d"

/-- Reply for a missing or non-string `msgId` member (no correlId is
attached). -/
def msgIdMissingReply : String :=
  "\x7b\"error\":\"property \x27msgId\x27 missing or not a string\"\x7d"

/-- Reply for a missing or non-string `cmd` member. -/
def cmdMissingReply (msgId : String) : String :=
  "\x7b\"correlId\":\"" ++ msgId ++
    "\",\"error\":\"property \x27cmd\x27 missing or not a string\"\x7d"

/-!
## Command dispatch

`cbOnRequestMessage` selects the handler by a chain of `isCommand` tests
on the RAW message text, in source order.
-/

/-- The command handlers reachable from the dispatch chain of
`cbOnRequestMessage` (the `quit` test sits before the chain and is
modelled separately, exactly as in the source). -/
inductive Handler where
  | empty
  | smartEmpty
  | enable
  | disable
  | enableChannels
  | disableChannels
  | inhibitChannels
  | float
  | payout
  | getFirmwareVersion
  | getDatasetVersion
  | channelSecurityData
  | getAllLevels
  | setDenominationLevel
  | lastRejectNote
  | unknown
deriving DecidableEq

/-- The if/else-if dispatch chain of `cbOnRequestMessage`, in source
order, driven by raw-substring `isCommand` tests. -/
def dispatch (message : String) : Handler :=
  if isCommand message "empty" then Handler.empty
  else if isCommand message "smart-empty" then Handler.smartEmpty
  else if isCommand message "enable" then Handler.enable
  else if isCommand message "disable" then Handler.disable
  else if isCommand message "enable-channels" then Handler.enableChannels
  else if isCommand message "disable-channels" then Handler.disableChannels
  else if isCommand message "inhibit-channels" then Handler.inhibitChannels
  else if isCommand message "test-float" || isCommand message "do-float" then
    Handler.float
  else if isCommand message "test-payout" || isCommand message "do-payout" then
    Handler.payout
  else if isCommand message "get-firmware-version" then Handler.getFirmwareVersion
  else if isCommand message "get-dataset-version" then Handler.getDatasetVersion
  else if isCommand message "channel-security-data" then Handler.channelSecurityData
  else if isCommand message "get-all-levels" then Handler.getAllLevels
  else if isCommand message "set-denomination-level" then Handler.setDenominationLevel
  else if isCommand message "last-reject-note" then Handler.lastRejectNote
  else Handler.unknown

/-- Wire results and device-reported data for one request, abstracting
the hardware side of the handlers' SSP exchanges. -/
structure Hw where
  setInhibitsRes : SspResponse
  payoutRes : SspResponse
  payoutErrCode : Nat
  floatRes : SspResponse
  floatErrCode : Nat
  denomRes2 : SspResponse
  fwRes : SspResponse
  firmwareVersion : String
  dsRes : SspResponse
  datasetVersion : String
  levelsJson : String
  rejectRes : SspResponse
  rejectReasonCode : Nat

/-- Run the selected handler and collect the response envelopes it
publishes on the response topic.  `dev` is the device's cached
`channelInhibits`. -/
def runHandler (hw : Hw) (dev : Nat) (responseMsgId msgId message : String)
    (jsonMessage : JVal) : Handler → List String
  | Handler.empty => [replyAccepted responseMsgId msgId]
  | Handler.smartEmpty => [replyAccepted responseMsgId msgId]
  | Handler.enable => [replyAccepted responseMsgId msgId]
  | Handler.disable => [replyAccepted responseMsgId msgId]
  | Handler.enableChannels =>
    [(handleEnableChannels dev responseMsgId msgId jsonMessage
        hw.setInhibitsRes).reply]
  | Handler.disableChannels =>
    [(handleDisableChannels dev responseMsgId msgId jsonMessage
        hw.setInhibitsRes).reply]
  | Handler.inhibitChannels =>
    [(handleInhibitChannels dev responseMsgId msgId jsonMessage
        hw.setInhibitsRes).reply]
  | Handler.float =>
    handlePayout responseMsgId msgId jsonMessage hw.floatRes hw.floatErrCode
  | Handler.payout =>
    handlePayout responseMsgId msgId jsonMessage hw.payoutRes hw.payoutErrCode
  | Handler.getFirmwareVersion =>
    handleGetFirmwareVersion msgId hw.fwRes hw.firmwareVersion
  | Handler.getDatasetVersion =>
    handleGetDatasetVersion msgId hw.dsRes hw.datasetVersion
  | Handler.channelSecurityData => handleChannelSecurityData
  | Handler.getAllLevels => handleGetAllLevels msgId hw.levelsJson
  | Handler.setDenominationLevel =>
    [(handleSetDenominationLevels responseMsgId msgId jsonMessage
        hw.denomRes2).2]
  | Handler.lastRejectNote =>
    handleLastRejectNote msgId hw.rejectRes hw.rejectReasonCode
  | Handler.unknown => [unknownCommandReply msgId message]

/-- `cbOnRequestMessage`, projected to the list of response envelopes
published on the paired response topic for one incoming message:
parse the message with jansson, extract `msgId` and `cmd` (each producing
an error reply and stopping when missing or not a string), run `handleQuit`
when the raw message contains `"cmd":"quit"`, then either reply
"hardware unavailable" (when no serial device is open) or run the
dispatch chain.  `responseMsgId` is the freshly generated UUID;
`errText`/`errLine` stand for jansson's parse-error report. -/
def cbOnRequestMessage (hw : Hw) (dev : Nat) (deviceAvailable : Bool)
    (responseMsgId errText : String) (errLine : Int) (message : String) :
    List String :=
  match json_loads message with
  | none => [parseErrorReply errText errLine]
  | some jsonMessage =>
    match jsonStringValue (json_object_get jsonMessage "msgId") with
    | none => [msgIdMissingReply]
    | some msgId =>
      match jsonStringValue (json_object_get jsonMessage "cmd") with
      | none => [cmdMissingReply msgId]
      | some _command =>
        (if isCommand message "quit" then [replyOk responseMsgId msgId] else [])
        ++
        (if deviceAvailable = false then [hardwareUnavailableReply msgId]
         else runHandler hw dev responseMsgId msgId message jsonMessage
                (dispatch message))

/-!
## Poll event translation

`hopperEventHandler` and `validatorEventHandler` iterate over the events
of one poll response and publish one JSON event envelope per event (zero
for an unmatched calibration sub-code, since that inner switch has no
default).  They are modelled per event.  The numeric values of the poll
event codes live in the vendor header `ssp_defines.h`, which is not part
of the repository; the decoded code is therefore an inductive type and
the raw code byte (printed by the default branch) is carried alongside.
-/

/-- Decoded SSP poll event codes (the `SSP_POLL_*` constants the two
switches test), plus `other` for codes neither handler names. -/
inductive PollCode where
  | reset
  | read
  | credit
  | rejecting
  | rejected
  | stacking
  | stored
  | stacked
  | safeJam
  | nonSafeJam
  | disabled
  | fraudAttempt
  | stackerFull
  | cashboxRemoved
  | cashboxReplaced
  | clearedFromFront
  | clearedIntoCashbox
  | calibrationFail
  | dispensing
  | dispensed
  | floating
  | floated
  | cashboxPaid
  | jammed
  | coinCredit
  | empty
  | emptying
  | smartEmptying
  | smartEmptied
  | incompletePayout
  | incompleteFloat
  | other
deriving DecidableEq

/-- One entry of `SSP_POLL_DATA6.events`: the decoded code, the raw code
byte (used by the default "unknown" branch), the data words and the
currency code. -/
structure PollEvent where
  code : PollCode
  rawByte : Nat
  data1 : Nat
  data2 : Nat
  cc : String
deriving DecidableEq

/-- Uppercase hex digit. -/
def hexDigit (n : Nat) : Char :=
  if n < 10 then Char.ofNat (48 + n) else Char.ofNat (55 + n)

/-- `%02X` of a byte. -/
def hexByte (n : Nat) : String :=
  String.mk [hexDigit (n / 16 % 16), hexDigit (n % 16)]

/-- The `{"event":"unknown","id":"0xNN"}` envelope of the default
branches, printing the raw event byte. -/
def unknownEventMessage (rawByte : Nat) : String :=
  "\x7b\"event\":\"unknown\",\"id\":\"0x" ++ hexByte rawByte ++ "\"\x7d"

/-- Modelled from the spec: the calibration-failure sub-codes
`NO_FAILUE` .. `COMMAND_RECAL` come from the vendor header
`ssp_defines.h`, absent from the repository; the spec fixes them as the
eight values 0..7, in the order the handlers list them. -/
def NO_FAILUE : Nat := 0

/-- Modelled from the spec: see `NO_FAILUE`. -/
def SENSOR_FLAP : Nat := 1

/-- Modelled from the spec: see `NO_FAILUE`. -/
def SENSOR_EXIT : Nat := 2

/-- Modelled from the spec: see `NO_FAILUE`. -/
def SENSOR_COIL1 : Nat := 3

/-- Modelled from the spec: see `NO_FAILUE`. -/
def SENSOR_COIL2 : Nat := 4

/-- Modelled from the spec: see `NO_FAILUE`. -/
def NOT_INITIALISED : Nat := 5

/-- Modelled from the spec: see `NO_FAILUE`. -/
def CHECKSUM_ERROR : Nat := 6

/-- Modelled from the spec: see `NO_FAILUE`. -/
def COMMAND_RECAL : Nat := 7

/-- The inner `SSP_POLL_CALIBRATION_FAIL` switch, shared verbatim by both
handlers: one envelope per known sub-code (`COMMAND_RECAL` additionally
triggers `ssp6_run_calibration`), nothing for an unknown sub-code (the
inner switch has no default). -/
def calibrationFailMessages (data1 : Nat) : List String :=
  if data1 = NO_FAILUE then
    ["\x7b\"event\":\"calibration fail\",\"error\":\"no error\"\x7d"]
  else if data1 = SENSOR_FLAP then
    ["\x7b\"event\":\"calibration fail\",\"error\":\"sensor flap\"\x7d"]
  else if data1 = SENSOR_EXIT then
    ["\x7b\"event\":\"calibration fail\",\"error\":\"sensor exit\"\x7d"]
  else if data1 = SENSOR_COIL1 then
    ["\x7b\"event\":\"calibration fail\",\"error\":\"sensor coil 1\"\x7d"]
  else if data1 = SENSOR_COIL2 then
    ["\x7b\"event\":\"calibration fail\",\"error\":\"sensor coil 2\"\x7d"]
  else if data1 = NOT_INITIALISED then
    ["\x7b\"event\":\"calibration fail\",\"error\":\"not initialized\"\x7d"]
  else if data1 = CHECKSUM_ERROR then
    ["\x7b\"event\":\"calibration fail\",\"error\":\"checksum error\"\x7d"]
  else if data1 = COMMAND_RECAL then
    ["\x7b\"event\":\"recalibrating\"\x7d"]
  else []

/-- `hopperEventHandler`, per event: the event envelopes published on
`hopper-event` (the RESET branch additionally re-asserts
`host_protocol(0x06)` on the wire and the COMMAND_RECAL sub-case runs
`ssp6_run_calibration`; only the published envelopes are modelled). -/
def hopperEventMessages (ev : PollEvent) : List String :=
  match ev.code with
  | PollCode.reset => ["\x7b\"event\":\"unit reset\"\x7d"]
  | PollCode.read =>
    if ev.data1 > 0 then
      ["\x7b\"event\":\"read\",\"channel\":" ++ toString ev.data1 ++ "\x7d"]
    else
      ["\x7b\"event\":\"reading\"\x7d"]
  | PollCode.dispensing =>
    ["\x7b\"event\":\"dispensing\",\"amount\":" ++ toString ev.data1 ++ "\x7d"]
  | PollCode.dispensed =>
    ["\x7b\"event\":\"dispensed\",\"amount\":" ++ toString ev.data1 ++ "\x7d"]
  | PollCode.floating =>
    ["\x7b\"event\":\"floating\",\"amount\":" ++ toString ev.data1 ++
      ",\"cc\":\"" ++ ev.cc ++ "\"\x7d"]
  | PollCode.floated =>
    ["\x7b\"event\":\"floated\",\"amount\":" ++ toString ev.data1 ++
      ",\"cc\":\"" ++ ev.cc ++ "\"\x7d"]
  | PollCode.cashboxPaid =>
    ["\x7b\"event\":\"cashbox paid\",\"amount\":" ++ toString ev.data1 ++
      ",\"cc\":\"" ++ ev.cc ++ "\"\x7d"]
  | PollCode.jammed => ["\x7b\"event\":\"jammed\"\x7d"]
  | PollCode.fraudAttempt => ["\x7b\"event\":\"fraud attempt\"\x7d"]
  | PollCode.coinCredit =>
    ["\x7b\"event\":\"coin credit\",\"amount\":" ++ toString ev.data1 ++
      ",\"cc\":\"" ++ ev.cc ++ "\"\x7d"]
  | PollCode.empty => ["\x7b\"event\":\"empty\"\x7d"]
  | PollCode.emptying => ["\x7b\"event\":\"emptying\"\x7d"]
  | PollCode.smartEmptying =>
    ["\x7b\"event\":\"smart emptying\",\"amount\":" ++ toString ev.data1 ++
      ",\"cc\":\"" ++ ev.cc ++ "\"\x7d"]
  | PollCode.smartEmptied =>
    ["\x7b\"event\":\"smart emptied\",\"amount\":" ++ toString ev.data1 ++
      ",\"cc\":\"" ++ ev.cc ++ "\"\x7d"]
  | PollCode.credit =>
    ["\x7b\"event\":\"credit\",\"channel\":" ++ toString ev.data1 ++
      ",\"cc\":\"" ++ ev.cc ++ "\"\x7d"]
  | PollCode.incompletePayout =>
    ["\x7b\"event\":\"incomplete payout\",\"dispensed\":" ++ toString ev.data1 ++
      ",\"requested\":" ++ toString ev.data2 ++ ",\"cc\":\"" ++ ev.cc ++ "\"\x7d"]
  | PollCode.incompleteFloat =>
    ["\x7b\"event\":\"incomplete float\",\"dispensed\":" ++ toString ev.data1 ++
      ",\"requested\":" ++ toString ev.data2 ++ ",\"cc\":\"" ++ ev.cc ++ "\"\x7d"]
  | PollCode.disabled => ["\x7b\"event\":\"disabled\"\x7d"]
  | PollCode.calibrationFail => calibrationFailMessages ev.data1
  | _ => [unknownEventMessage ev.rawByte]

/-- One entry of the cached `SSP6_SETUP_REQUEST_DATA.ChannelData` array:
the channel's value (in minor units / 100) and its 3-ASCII currency
code. -/
structure ChannelEntry where
  value : Nat
  cc : String
deriving DecidableEq

/-- The array index `data1 - 1` computed with C `unsigned long`
arithmetic: for `data1 = 0` it wraps to `2^64 - 1`. -/
def creditIndex (data1 : Nat) : Nat :=
  (data1 + (18446744073709551616 - 1)) % 18446744073709551616

/-- `validatorEventHandler`, per event, against the device's cached setup
report: the event envelopes published on `validator-event`, or `none`
when the handler reads `ChannelData[data1 - 1]` out of bounds (the READ
branch is guarded by `data1 > 0`, the CREDIT branch is not). -/
def validatorEventMessages (report : List ChannelEntry) (ev : PollEvent) :
    Option (List String) :=
  match ev.code with
  | PollCode.reset => some ["\x7b\"event\":\"unit reset\"\x7d"]
  | PollCode.read =>
    if ev.data1 > 0 then
      match report[creditIndex ev.data1]? with
      | some channel =>
        some ["\x7b\"event\":\"read\",\"amount\":" ++
          toString (channel.value * 100) ++ ",\"channel\":" ++
          toString ev.data1 ++ "\x7d"]
      | none => none
    else
      some ["\x7b\"event\":\"reading\"\x7d"]
  | PollCode.empty => some ["\x7b\"event\":\"empty\"\x7d"]
  | PollCode.emptying => some ["\x7b\"event\":\"emptying\"\x7d"]
  | PollCode.smartEmptying => some ["\x7b\"event\":\"smart emptying\"\x7d"]
  | PollCode.credit =>
    match report[creditIndex ev.data1]? with
    | some channel =>
      some ["\x7b\"event\":\"credit\",\"amount\":" ++
        toString (channel.value * 100) ++ ",\"channel\":" ++
        toString ev.data1 ++ "\x7d"]
    | none => none
  | PollCode.incompletePayout =>
    some ["\x7b\"event\":\"incomplete payout\",\"dispensed\":" ++
      toString ev.data1 ++ ",\"requested\":" ++ toString ev.data2 ++
      ",\"cc\":\"" ++ ev.cc ++ "\"\x7d"]
  | PollCode.incompleteFloat =>
    some ["\x7b\"event\":\"incomplete float\",\"dispensed\":" ++
      toString ev.data1 ++ ",\"requested\":" ++ toString ev.data2 ++
      ",\"cc\":\"" ++ ev.cc ++ "\"\x7d"]
  | PollCode.rejecting => some ["\x7b\"event\":\"rejecting\"\x7d"]
  | PollCode.rejected => some ["\x7b\"event\":\"rejected\"\x7d"]
  | PollCode.stacking => some ["\x7b\"event\":\"stacking\"\x7d"]
  | PollCode.stored => some ["\x7b\"event\":\"stored\"\x7d"]
  | PollCode.stacked => some ["\x7b\"event\":\"stacked\"\x7d"]
  | PollCode.safeJam => some ["\x7b\"event\":\"safe jam\"\x7d"]
  | PollCode.nonSafeJam => some ["\x7b\"event\":\"unsafe jam\"\x7d"]
  | PollCode.disabled => some ["\x7b\"event\":\"disabled\"\x7d"]
  | PollCode.fraudAttempt =>
    some ["\x7b\"event\":\"fraud attempt\",\"dispensed\":" ++
      toString ev.data1 ++ "\x7d"]
  | PollCode.stackerFull => some ["\x7b\"event\":\"stacker full\"\x7d"]
  | PollCode.cashboxRemoved => some ["\x7b\"event\":\"cashbox removed\"\x7d"]
  | PollCode.cashboxReplaced => some ["\x7b\"event\":\"cashbox replaced\"\x7d"]
  | PollCode.clearedFromFront => some ["\x7b\"event\":\"cleared from front\"\x7d"]
  | PollCode.clearedIntoCashbox =>
    some ["\x7b\"event\":\"cleared into cashbox\"\x7d"]
  | PollCode.calibrationFail => some (calibrationFailMessages ev.data1)
  | _ => some [unknownEventMessage ev.rawByte]

/-!
## Helper lemmas
-/

set_option maxRecDepth 4096

/-- One enable step, rewritten to a disjunct form. -/
theorem setStep_or (m x : Nat) (b : Bool) :
    setStep m b x = m ||| (if b then 1 <<< x else 0) := by
  cases b <;> simp [setStep]

/-- The sequential OR-fold of `handleEnableChannels` equals a single OR
with the requested channel mask. -/
theorem enableMask_or (old : Nat) (ch : String) :
    enableMask old ch = old ||| chanBits ch := by
  simp [enableMask, chanBits, setStep_or, Nat.or_assoc]

/-- The sequential AND-NOT fold of `handleDisableChannels`, over the
booleans of the eight digit tests and all 8-bit starting masks. -/
theorem disableFold_eq : ∀ old < 256, ∀ b1 b2 b3 b4 b5 b6 b7 b8 : Bool,
    clearStep (clearStep (clearStep (clearStep (clearStep (clearStep
      (clearStep (clearStep old b1 0) b2 1) b3 2) b4 3) b5 4) b6 5) b7 6) b8 7
    = old &&& (255 ^^^
        ((if b1 then 1 <<< 0 else 0) ||| (if b2 then 1 <<< 1 else 0) |||
         (if b3 then 1 <<< 2 else 0) ||| (if b4 then 1 <<< 3 else 0) |||
         (if b5 then 1 <<< 4 else 0) ||| (if b6 then 1 <<< 5 else 0) |||
         (if b7 then 1 <<< 6 else 0) ||| (if b8 then 1 <<< 7 else 0))) := by
  decide

/-- The sequential AND-NOT fold of `handleDisableChannels` equals a
single AND with the 8-bit complement of the requested channel mask. -/
theorem disableMask_and (old : Nat) (h : old < 256) (ch : String) :
    disableMask old ch = old &&& (255 ^^^ chanBits ch) :=
  disableFold_eq old h (strstr ch "1") (strstr ch "2") (strstr ch "3")
    (strstr ch "4") (strstr ch "5") (strstr ch "6") (strstr ch "7")
    (strstr ch "8")

/-- The requested channel mask is an 8-bit value. -/
theorem chanBits_lt (ch : String) : chanBits ch < 256 := by
  have h : ∀ b1 b2 b3 b4 b5 b6 b7 b8 : Bool,
      ((if b1 then 1 <<< 0 else 0) ||| (if b2 then 1 <<< 1 else 0) |||
       (if b3 then 1 <<< 2 else 0) ||| (if b4 then 1 <<< 3 else 0) |||
       (if b5 then 1 <<< 4 else 0) ||| (if b6 then 1 <<< 5 else 0) |||
       (if b7 then 1 <<< 6 else 0) ||| (if b8 then 1 <<< 7 else 0)) < 256 := by
    decide
  exact h (strstr ch "1") (strstr ch "2") (strstr ch "3") (strstr ch "4")
    (strstr ch "5") (strstr ch "6") (strstr ch "7") (strstr ch "8")

/-- The low byte sent by `handleInhibitChannels` is the 8-bit complement
of the requested channel mask. -/
theorem inhibitLow_compl (ch : String) :
    inhibitLow ch = 255 ^^^ chanBits ch := by
  have hd := disableMask_and 255 (by norm_num) ch
  have h255 : ∀ x < 256, 255 &&& x = x := by decide
  have hxx : ∀ x < 256, 255 ^^^ x < 256 := by decide
  rw [inhibitLow, hd]
  exact h255 _ (hxx _ (chanBits_lt ch))

/-- The C `unsigned long` index `data1 - 1` equals `data1 - 1` whenever
`data1` is a positive 64-bit value. -/
theorem creditIndex_of_pos (k : Nat) (h1 : 1 ≤ k)
    (h2 : k < 18446744073709551616) : creditIndex k = k - 1 := by
  unfold creditIndex
  have hsplit : k + (18446744073709551616 - 1)
      = 18446744073709551616 + (k - 1) := by omega
  rw [hsplit, Nat.add_mod_left]
  exact Nat.mod_eq_of_lt (by omega)

/-!
## Claim theorems
-/

/-- C1: the claim states that every accepted command envelope produces
exactly one response whose `correlId` is the incoming `msgId`.  The code
refutes it: an accepted `channel-security-data` command produces NO
response at all, and an accepted `quit` command produces TWO (the ok
reply of `handleQuit`, then the dispatch chain falls through to the
unknown-command reply). -/
theorem C1_response_count_violations (hw : Hw) (dev : Nat)
    (responseMsgId errText : String) (errLine : Int) :
    cbOnRequestMessage hw dev true responseMsgId errText errLine
      "\x7b\"msgId\":\"X\",\"cmd\":\"channel-security-data\"\x7d" = []
  ∧ cbOnRequestMessage hw dev true responseMsgId errText errLine
      "\x7b\"msgId\":\"A\",\"cmd\":\"quit\"\x7d"
    = [replyOk responseMsgId "A",
       unknownCommandReply "A" "\x7b\"msgId\":\"A\",\"cmd\":\"quit\"\x7d"] :=
  ⟨rfl, rfl⟩

/-- C2: the claim takes the JSON field names as authoritative (`level` is
the coin count, `amount` the coin value).  The code swaps them: for
`{"level":5,"amount":200}` the guard tests the `amount` field and the two
wire calls carry the JSON `level` in the 4-byte value field and the JSON
`amount` in the 2-byte count field — the payload of the second call is
`[0x34, 200, 0, 5, 0, 0, 0, 'E','U','R']`, not the claimed
`[0x34, 5, 0, 200, 0, 0, 0, ...]`. -/
theorem C2_set_denomination_level_swapped (responseMsgId msgId : String)
    (res2 : SspResponse) :
    (handleSetDenominationLevels responseMsgId msgId (JVal.jobj
        [("msgId", JVal.jstr "X"), ("cmd", JVal.jstr "set-denomination-level"),
         ("level", JVal.jnum 5), ("amount", JVal.jnum 200)]) res2).1
      = [{ amount := 5, level := 0, cc := "EUR" },
         { amount := 5, level := 200, cc := "EUR" }]
  ∧ ([{ amount := 5, level := 0, cc := "EUR" },
      { amount := 5, level := 200, cc := "EUR" }] : List DenomCall)
      ≠ [{ amount := 200, level := 0, cc := "EUR" },
         { amount := 200, level := 5, cc := "EUR" }]
  ∧ mc_ssp_set_denomination_level_payload 5 200 "EUR"
      = [0x34, 200, 0, 5, 0, 0, 0, 69, 85, 82] :=
  ⟨rfl, by decide, rfl⟩

/-- C3: the claim states the unknown-command reply's `cmd` field is the
parsed cmd value ("levitate").  The code refutes it: the reply format has
two `%s` but three varargs `(msgId, message, command)`, so the `cmd`
field receives the entire raw message (also yielding malformed JSON). -/
theorem C3_unknown_command_reply_embeds_raw_message (hw : Hw) (dev : Nat)
    (responseMsgId errText : String) (errLine : Int) :
    cbOnRequestMessage hw dev true responseMsgId errText errLine
      "\x7b\"msgId\":\"D\",\"cmd\":\"levitate\"\x7d"
    = ["\x7b\"correlId\":\"D\",\"error\":\"unknown command\",\"cmd\":\"\x7b\"msgId\":\"D\",\"cmd\":\"levitate\"\x7d\"\x7d"]
  ∧ ("\x7b\"correlId\":\"D\",\"error\":\"unknown command\",\"cmd\":\"\x7b\"msgId\":\"D\",\"cmd\":\"levitate\"\x7d\"\x7d" : String)
      ≠ "\x7b\"correlId\":\"D\",\"error\":\"unknown command\",\"cmd\":\"levitate\"\x7d" :=
  ⟨rfl, by decide⟩

/-- C4 counterexample: a hopper DISPENSING event with `data1 = 500` and
`cc = "EUR"` is published without any `cc` member, refuting the claim
that all four of DISPENSING/DISPENSED/COIN_CREDIT/CASHBOX_PAID carry
both `amount` and `cc`. -/
theorem C4_counterexample_dispensing_lacks_cc :
    hopperEventMessages ⟨PollCode.dispensing, 0xDA, 500, 0, "EUR"⟩
      = ["\x7b\"event\":\"dispensing\",\"amount\":500\x7d"]
  ∧ json_loads "\x7b\"event\":\"dispensing\",\"amount\":500\x7d"
      = some (JVal.jobj [("event", JVal.jstr "dispensing"),
                         ("amount", JVal.jnum 500)])
  ∧ json_object_get (JVal.jobj [("event", JVal.jstr "dispensing"),
                                ("amount", JVal.jnum 500)]) "cc" = none :=
  ⟨rfl, rfl, rfl⟩

/-- C4 amended: hopper COIN_CREDIT and CASHBOX_PAID event envelopes carry
both `amount = data1` and `cc`; hopper DISPENSING and DISPENSED envelopes
carry `amount = data1` but no `cc` member. -/
theorem C4_amended_hopper_amount_cc_fields (raw d1 d2 : Nat) (cc : String) :
    hopperEventMessages ⟨PollCode.dispensing, raw, d1, d2, cc⟩
      = ["\x7b\"event\":\"dispensing\",\"amount\":" ++ toString d1 ++ "\x7d"]
  ∧ hopperEventMessages ⟨PollCode.dispensed, raw, d1, d2, cc⟩
      = ["\x7b\"event\":\"dispensed\",\"amount\":" ++ toString d1 ++ "\x7d"]
  ∧ hopperEventMessages ⟨PollCode.coinCredit, raw, d1, d2, cc⟩
      = ["\x7b\"event\":\"coin credit\",\"amount\":" ++ toString d1 ++
          ",\"cc\":\"" ++ cc ++ "\"\x7d"]
  ∧ hopperEventMessages ⟨PollCode.cashboxPaid, raw, d1, d2, cc⟩
      = ["\x7b\"event\":\"cashbox paid\",\"amount\":" ++ toString d1 ++
          ",\"cc\":\"" ++ cc ++ "\"\x7d"] :=
  ⟨rfl, rfl, rfl, rfl⟩

/-- C5: a validator READ event with `data1 = k > 0` and a validator
CREDIT event with channel `k` are both published with
`amount = channel_data[k-1].value * 100` and `channel = k`, whenever
channel `k` exists in the cached setup report. -/
theorem C5_validator_read_credit_amount (report : List ChannelEntry)
    (k raw d2 : Nat) (cc : String) (channel : ChannelEntry)
    (h1 : 1 ≤ k) (h2 : k < 18446744073709551616)
    (hch : report[k - 1]? = some channel) :
    validatorEventMessages report ⟨PollCode.read, raw, k, d2, cc⟩
      = some ["\x7b\"event\":\"read\",\"amount\":" ++
          toString (channel.value * 100) ++ ",\"channel\":" ++
          toString k ++ "\x7d"]
  ∧ validatorEventMessages report ⟨PollCode.credit, raw, k, d2, cc⟩
      = some ["\x7b\"event\":\"credit\",\"amount\":" ++
          toString (channel.value * 100) ++ ",\"channel\":" ++
          toString k ++ "\x7d"] := by
  have hidx : creditIndex k = k - 1 := creditIndex_of_pos k h1 h2
  have hk : 0 < k := h1
  constructor
  · simp [validatorEventMessages, hidx, hch, hk]
  · simp [validatorEventMessages, hidx, hch]

/-- C5 witness: a one-channel report with value 10 at channel 1. -/
theorem C5_witness :
    (1 ≤ 1 ∧ 1 < 18446744073709551616 ∧
      ([⟨10, "EUR"⟩] : List ChannelEntry)[1 - 1]? = some ⟨10, "EUR"⟩)
  ∧ (validatorEventMessages [⟨10, "EUR"⟩] ⟨PollCode.read, 0xEF, 1, 0, "EUR"⟩
      = some ["\x7b\"event\":\"read\",\"amount\":" ++ toString (10 * 100) ++
          ",\"channel\":" ++ toString 1 ++ "\x7d"]
    ∧ validatorEventMessages [⟨10, "EUR"⟩] ⟨PollCode.credit, 0xEE, 1, 0, "EUR"⟩
      = some ["\x7b\"event\":\"credit\",\"amount\":" ++ toString (10 * 100) ++
          ",\"channel\":" ++ toString 1 ++ "\x7d"]) :=
  ⟨⟨by decide, by decide, rfl⟩,
   C5_validator_read_credit_amount [⟨10, "EUR"⟩] 1 0xEF 0 "EUR" ⟨10, "EUR"⟩
     (by decide) (by decide) rfl⟩

/-- C6: for an accepted enable-channels (resp. disable-channels) command,
the new mask is the OR (resp. AND-NOT, at the 8-bit width) of the cached
mask with the bits named by the digits of the `channels` string, the wire
call is `set_inhibits(new_mask, 0xFF)`, and the cached mask becomes the
new mask exactly when the wire call returns OK; from mask 0x00,
channels "135" yields `set_inhibits(0b00010101, 0xFF)`, an ok reply and
cached mask 0x15. -/
theorem C6_enable_disable_channels (dev : Nat) (h : dev < 256)
    (responseMsgId msgId channels : String) (j : JVal) (res : SspResponse)
    (hch : jsonStringValue (json_object_get j "channels") = some channels) :
    (handleEnableChannels dev responseMsgId msgId j res).wire
        = some (dev ||| chanBits channels, 255)
  ∧ (handleEnableChannels dev responseMsgId msgId j res).newMask
        = (if res = SspResponse.ok then dev ||| chanBits channels else dev)
  ∧ (handleDisableChannels dev responseMsgId msgId j res).wire
        = some (dev &&& (255 ^^^ chanBits channels), 255)
  ∧ (handleDisableChannels dev responseMsgId msgId j res).newMask
        = (if res = SspResponse.ok then dev &&& (255 ^^^ chanBits channels)
           else dev)
  ∧ handleEnableChannels 0 responseMsgId msgId
        (JVal.jobj [("channels", JVal.jstr "135")]) SspResponse.ok
      = ⟨some (21, 255), 21, replyOk responseMsgId msgId⟩ := by
  refine ⟨?_, ?_, ?_, ?_, rfl⟩ <;>
    simp [handleEnableChannels, handleDisableChannels, hch, enableMask_or,
      disableMask_and dev h]

/-- C6 witness: enable/disable "135" on a device with cached mask 0. -/
theorem C6_witness :
    ((0 : Nat) < 256
  ∧ jsonStringValue (json_object_get
        (JVal.jobj [("channels", JVal.jstr "135")]) "channels") = some "135")
  ∧ (handleEnableChannels 0 "R" "B"
        (JVal.jobj [("channels", JVal.jstr "135")]) SspResponse.ok).wire
      = some (0 ||| chanBits "135", 255) :=
  ⟨⟨by decide, rfl⟩,
   (C6_enable_disable_channels 0 (by decide) "R" "B" "135"
      (JVal.jobj [("channels", JVal.jstr "135")]) SspResponse.ok rfl).1⟩

/-- C7 counterexample: two valid JSON messages that parse to the same
`cmd` value "empty" but dispatch to different handlers, because the
dispatch chain substring-matches the raw bytes; inserting a space after
the colon defeats the match. -/
theorem C7_counterexample_same_cmd_different_dispatch :
    parsedCmd "\x7b\"msgId\":\"A\",\"cmd\":\"empty\"\x7d" = some "empty"
  ∧ parsedCmd "\x7b\"msgId\":\"A\", \"cmd\": \"empty\"\x7d" = some "empty"
  ∧ dispatch "\x7b\"msgId\":\"A\",\"cmd\":\"empty\"\x7d" = Handler.empty
  ∧ dispatch "\x7b\"msgId\":\"A\", \"cmd\": \"empty\"\x7d" = Handler.unknown
  ∧ Handler.empty ≠ Handler.unknown :=
  ⟨rfl, rfl, rfl, rfl, by decide⟩

/-- C7 amended: dispatch depends only on the raw-substring tests
`isCommand(message, c)`: two messages that agree on every such test are
dispatched to the same handler (agreement on the parsed `cmd` value is
neither sufficient nor required). -/
theorem C7_amended_dispatch_by_substring_tests (m1 m2 : String)
    (h : ∀ c : String, isCommand m1 c = isCommand m2 c) :
    dispatch m1 = dispatch m2 := by
  simp only [dispatch, h]

/-- C7 amended witness: a message trivially agrees with itself on every
substring test. -/
theorem C7_amended_witness :
    (∀ c : String, isCommand "x" c = isCommand "x" c)
  ∧ dispatch "x" = dispatch "x" :=
  ⟨fun _ => rfl,
   C7_amended_dispatch_by_substring_tests "x" "x" (fun _ => rfl)⟩

/-- C8: the claim states every response is well-formed JSON and the
version replies have exactly the shape
`{"correlId":...,"version":"..."}`.  The code refutes it: both version
reply format strings end in `\"]}`, so the published envelopes close with
`"]}` and do not parse as JSON. -/
theorem C8_version_replies_malformed :
    handleGetFirmwareVersion "X" SspResponse.ok "NV0200"
      = ["\x7b\"correlId\":\"X\",\"version\":\"NV0200\"]\x7d"]
  ∧ json_loads "\x7b\"correlId\":\"X\",\"version\":\"NV0200\"]\x7d" = none
  ∧ handleGetDatasetVersion "X" SspResponse.ok "EUR01610"
      = ["\x7b\"correlId\":\"X\",\"version\":\"EUR01610\"]\x7d"]
  ∧ json_loads "\x7b\"correlId\":\"X\",\"version\":\"EUR01610\"]\x7d" = none :=
  ⟨rfl, rfl, rfl, rfl⟩

/-- C9: an accepted inhibit-channels command sends
`set_inhibits(low, 0xFF)` with `low` the 8-bit complement of the
requested channel mask, and the cached `channelInhibits` is never
written, whatever the message and whatever the wire result. -/
theorem C9_inhibit_channels_transient (dev : Nat)
    (responseMsgId msgId channels : String) (j : JVal) (res : SspResponse)
    (hch : jsonStringValue (json_object_get j "channels") = some channels) :
    (handleInhibitChannels dev responseMsgId msgId j res).wire
        = some (255 ^^^ chanBits channels, 255)
  ∧ ∀ (j2 : JVal) (res2 : SspResponse),
      (handleInhibitChannels dev responseMsgId msgId j2 res2).newMask
        = dev := by
  constructor
  · simp [handleInhibitChannels, hch, inhibitLow_compl]
  · intro j2 res2
    cases hc : jsonStringValue (json_object_get j2 "channels") <;>
      simp [handleInhibitChannels, hc]

/-- C9 witness: inhibit channels "135" on a device with cached mask 7. -/
theorem C9_witness :
    jsonStringValue (json_object_get
        (JVal.jobj [("channels", JVal.jstr "135")]) "channels") = some "135"
  ∧ ((handleInhibitChannels 7 "R" "B"
        (JVal.jobj [("channels", JVal.jstr "135")]) SspResponse.ok).wire
      = some (255 ^^^ chanBits "135", 255)
    ∧ ∀ (j2 : JVal) (res2 : SspResponse),
        (handleInhibitChannels 7 "R" "B" j2 res2).newMask = 7) :=
  ⟨rfl, C9_inhibit_channels_transient 7 "R" "B" "135"
      (JVal.jobj [("channels", JVal.jstr "135")]) SspResponse.ok rfl⟩

/-- C10: the validator CREDIT translation indexes the cached report at
`data1 - 1` without the `data1 > 0` guard that READ has: for a CREDIT
event with `data1 = 0` the `unsigned long` index wraps to `2^64 - 1` and
the access is out of bounds (the translation is undefined), while READ
with `data1 = 0` publishes "reading"; for `data1 = k ≥ 1` with channel
`k` present the CREDIT translation is well-defined. -/
theorem C10_credit_unguarded_index (report : List ChannelEntry)
    (hlen : report.length < 18446744073709551616) (raw d2 : Nat)
    (cc : String) :
    validatorEventMessages report ⟨PollCode.credit, raw, 0, d2, cc⟩ = none
  ∧ validatorEventMessages report ⟨PollCode.read, raw, 0, d2, cc⟩
      = some ["\x7b\"event\":\"reading\"\x7d"]
  ∧ ∀ (k : Nat) (channel : ChannelEntry), 1 ≤ k →
      k < 18446744073709551616 → report[k - 1]? = some channel →
      validatorEventMessages report ⟨PollCode.credit, raw, k, d2, cc⟩
        = some ["\x7b\"event\":\"credit\",\"amount\":" ++
            toString (channel.value * 100) ++ ",\"channel\":" ++
            toString k ++ "\x7d"] := by
  refine ⟨?_, ?_, ?_⟩
  · have h0 : creditIndex 0 = 18446744073709551615 := by
      unfold creditIndex
      exact Nat.mod_eq_of_lt (by omega)
    have hnone : report[creditIndex 0]? = none := by
      rw [h0]
      exact List.getElem?_eq_none (by omega)
    simp [validatorEventMessages, hnone]
  · simp [validatorEventMessages]
  · intro k channel h1 h2 hch
    have hidx : creditIndex k = k - 1 := creditIndex_of_pos k h1 h2
    simp [validatorEventMessages, hidx, hch]

/-- C10 witness: a one-channel report. -/
theorem C10_witness :
    ([⟨10, "EUR"⟩] : List ChannelEntry).length < 18446744073709551616
  ∧ validatorEventMessages [⟨10, "EUR"⟩] ⟨PollCode.credit, 0xEE, 0, 0, "EUR"⟩
      = none :=
  ⟨by decide,
   (C10_credit_unguarded_index [⟨10, "EUR"⟩] (by decide) 0xEE 0 "EUR").1⟩

end Payoutd
